import Mathlib

set_option linter.unusedVariables false

/-!
Shallow embedding of the evidence-fusion core of the photo/video-based
crop-insurance claim system.

Source files embedded here:
* `GeolocationService` (geo consistency scorer): `verifyCoordinates`,
  `_detectOutliers` and the tunable constants.
* `WeatherService` (weather correlation scorer): the
  `DAMAGE_WEATHER_CORRELATION` table, `getCurrentWeather` with its
  coordinate-keyed TTL cache, `_getMockWeatherData`, and
  `verifyWeatherDamageCorrelation`.
* The decision engine of the server: `determineClaimDecision`,
  `mapPythonToFrontend` and `generateFallbackResult`.

JavaScript numbers are modelled as `ℚ` (all scores and thresholds in the
source are exact decimals, and every comparison settled below is far from
any binary-rounding boundary).  Mutation chains on the result objects are
modelled as explicit data flow.  Fallible lookups are `Option`s.
-/

namespace Insurance

/-! ## Geolocation service (`GeolocationService`) -/

/-- One entry of the `coordinatesList` argument.  A coordinate that is
missing or non-numeric (`isNaN` in the source) is `none`. -/
structure RawPoint where
  lat : Option ℚ
  lon : Option ℚ
deriving DecidableEq

/-- A validated coordinate pair. -/
structure Coord where
  lat : ℚ
  lon : ℚ
deriving DecidableEq

/-- The filter `c && !isNaN(c.lat) && !isNaN(c.lon)` applied to one list
entry: a `null` entry or an entry with a missing/non-numeric coordinate is
dropped, otherwise the entry survives as a `Coord`. -/
def validOf : Option RawPoint → Option Coord
  | none => none
  | some p =>
    match p.lat, p.lon with
    | some la, some lo => some ⟨la, lo⟩
    | _, _ => none

/-- Configuration constant `MAX_CLUSTER_SPREAD_KM = 5.0`. -/
def MAX_CLUSTER_SPREAD_KM : ℚ := 5

/-- Configuration constant `WARNING_THRESHOLD_KM = 2.0`. -/
def WARNING_THRESHOLD_KM : ℚ := 2

/-- Configuration constant `EXIF_USER_TOLERANCE_M = 100`. -/
def EXIF_USER_TOLERANCE_M : ℚ := 100

/-- Status values produced by the geolocation scorer. -/
inductive GeoStatus where
  | PASS
  | WARNING
  | FAIL
deriving DecidableEq

/-- The detail strings pushed by `verifyCoordinates`, abstracted to tags
carrying the interpolated numeric data. -/
inductive GeoDetail where
  | noImageCoordinates
  | noValidGPS
  | extremeSpread (km : ℚ)
  | highSpread (km : ℚ)
  | normalSpread (km : ℚ)
  | outliers (n : Nat)
  | userMismatch (m : ℚ)
  | userMatch (m : ℚ)
deriving DecidableEq

/-- Recogniser for the aggregated outlier detail line. -/
def GeoDetail.isOutliersTag : GeoDetail → Bool
  | .outliers _ => true
  | _ => false

/-- The result object built by `verifyCoordinates`: status, score, details
and the metrics map (`center`, `spread_km`, `dist_to_user_m`). -/
structure GeoResult where
  status : GeoStatus
  score : ℚ
  details : List GeoDetail
  center : Option Coord
  spread_km : Option ℚ
  dist_to_user_m : Option ℚ
deriving DecidableEq

/-- True when the result carries an aggregated outlier detail line. -/
def hasOutlierDetail (r : GeoResult) : Bool :=
  r.details.any GeoDetail.isOutliersTag

/-- The two geodesic primitives the scorer delegates to the `geolib`
library: `getCenter` and `getDistance` (metres).  The scorer's logic is
independent of their numeric values, so the embedding is parametric in
them and every theorem below quantifies over all such primitives. -/
structure GeoFns where
  getCenter : List Coord → Coord
  getDistance : Coord → Coord → ℚ

/-- `Math.max`, written out so that it evaluates by kernel reduction. -/
def jsMax (a b : ℚ) : ℚ := if a ≤ b then b else a

/-- `Math.min`, written out so that it evaluates by kernel reduction. -/
def jsMin (a b : ℚ) : ℚ := if a ≤ b then a else b

/-- Final clamp `Math.max(0, Math.min(1, score))`. -/
def clamp01 (x : ℚ) : ℚ := jsMax 0 (jsMin 1 x)

/-- The `maxDist` loop: maximum distance (metres) from `center` to any
point, starting from `0`. -/
def maxDistOf (G : GeoFns) (vc : List Coord) (center : Coord) : ℚ :=
  (vc.map (fun c => G.getDistance center c)).foldl jsMax 0

/-- The mean of the distances from `center` to the points, as computed in
`_detectOutliers`. -/
def avgDistOf (G : GeoFns) (vc : List Coord) (center : Coord) : ℚ :=
  (vc.map (fun c => G.getDistance center c)).sum /
    ((vc.map (fun c => G.getDistance center c)).length : ℚ)

/-- `_detectOutliers`: if the average distance to the centre is below 10 m
the outlier pass is skipped (empty list); otherwise the points whose
distance exceeds three times the average are returned. -/
def detectOutliers (G : GeoFns) (coords : List Coord) (center : Coord) :
    List Coord :=
  let avgDist := avgDistOf G coords center
  if avgDist < 10 then []
  else coords.filter fun c => G.getDistance center c > avgDist * 3

/-- Status assigned by the spread branch of `verifyCoordinates`. -/
def spreadStatus (spreadKm : ℚ) : GeoStatus :=
  if spreadKm > MAX_CLUSTER_SPREAD_KM then .FAIL
  else if spreadKm > WARNING_THRESHOLD_KM then .WARNING
  else .PASS

/-- Score after the spread branch of `verifyCoordinates` (initial score
`1.0` minus the spread penalty). -/
def spreadScore (spreadKm : ℚ) : ℚ :=
  if spreadKm > MAX_CLUSTER_SPREAD_KM then 1 - 6/10
  else if spreadKm > WARNING_THRESHOLD_KM then 1 - 3/10
  else 1

/-- Detail line pushed by the spread branch of `verifyCoordinates`. -/
def spreadDetail (spreadKm : ℚ) : GeoDetail :=
  if spreadKm > MAX_CLUSTER_SPREAD_KM then .extremeSpread spreadKm
  else if spreadKm > WARNING_THRESHOLD_KM then .highSpread spreadKm
  else .normalSpread spreadKm

/-- Main path of `verifyCoordinates`, reached once `validCoords` is known
to be non-empty: clustering, outlier pass, optional user-location check,
final clamp.  The guard `userLocation && userLocation.lat` of the source
makes a user location with a falsy (`0`) latitude skip the check. -/
def verifyMain (G : GeoFns) (vc : List Coord) (ul : Option Coord) :
    GeoResult :=
  let center := G.getCenter vc
  let spreadKm := maxDistOf G vc center / 1000
  let st1 := spreadStatus spreadKm
  let sc1 := spreadScore spreadKm
  let d1 := [spreadDetail spreadKm]
  let outliers := detectOutliers G vc center
  let sc2 := if 0 < outliers.length then
      sc1 - (outliers.length : ℚ) * (1/10) else sc1
  let d2 := if 0 < outliers.length then
      d1 ++ [GeoDetail.outliers outliers.length] else d1
  match ul with
  | none => ⟨st1, clamp01 sc2, d2, some center, some spreadKm, none⟩
  | some u =>
    if u.lat = 0 then ⟨st1, clamp01 sc2, d2, some center, some spreadKm, none⟩
    else
      let userDist := G.getDistance center u
      if userDist > EXIF_USER_TOLERANCE_M * 5 then
        ⟨if st1 = .PASS then .WARNING else st1, clamp01 (sc2 - 3/10),
          d2 ++ [.userMismatch userDist], some center, some spreadKm,
          some userDist⟩
      else
        ⟨st1, clamp01 sc2, d2 ++ [.userMatch userDist], some center,
          some spreadKm, some userDist⟩

/-- `verifyCoordinates(coordinatesList, userLocation)`: the two early
neutral returns for a missing/empty list and for a list with no valid GPS
data, then the main verification path. -/
def verifyCoordinates (G : GeoFns)
    (coordinatesList : Option (List (Option RawPoint)))
    (userLocation : Option Coord) : GeoResult :=
  match coordinatesList with
  | none => ⟨.WARNING, 1/2, [.noImageCoordinates], none, none, none⟩
  | some l =>
    if l.isEmpty then ⟨.WARNING, 1/2, [.noImageCoordinates], none, none, none⟩
    else
      let validCoords := l.filterMap validOf
      if validCoords.isEmpty then
        ⟨.WARNING, 1/2, [.noValidGPS], none, none, none⟩
      else verifyMain G validCoords userLocation

/-! ## Weather service (`WeatherService`) -/

/-- One rule of the `DAMAGE_WEATHER_CORRELATION` table.  `minTemp` and
`maxHumidity` are only present on the drought rule; an absent field
compares as `undefined` in the source, i.e. every comparison with it is
false. -/
structure WeatherRule where
  supporting : List String
  contradicting : List String
  minTemp : Option ℚ
  maxHumidity : Option ℚ
deriving DecidableEq

/-- The rule resolved by the lookup
`DAMAGE_WEATHER_CORRELATION[damageType] || DAMAGE_WEATHER_CORRELATION['other']`
in the cases where it yields a usable rule object: one of the five own
entries of the table, or the `'other'` default when the bracket lookup is
falsy.  The full bracket-lookup semantics, including the names the table
object inherits from `Object.prototype` (for which the lookup is truthy
but not a rule), is `damageWeatherLookup` below. -/
def damageWeatherCorrelation (damageType : String) : WeatherRule :=
  if damageType = "DR" then
    ⟨["Clear", "Clouds"], ["Rain", "Thunderstorm", "Drizzle"], some 30, some 40⟩
  else if damageType = "ND" then
    ⟨["Rain", "Extreme"], [], none, none⟩
  else if damageType = "WD" then
    ⟨["Rain", "Clear", "Clouds"], ["Snow", "Extreme"], none, none⟩
  else if damageType = "G" then
    ⟨["Clear", "Clouds", "Rain"], ["Extreme"], none, none⟩
  else
    ⟨[], [], none, none⟩

/-- The five own keys of the `DAMAGE_WEATHER_CORRELATION` object literal. -/
def ownRuleKeys : List String := ["DR", "ND", "WD", "G", "other"]

/-- The own property names of `Object.prototype`, which an object literal
inherits: a bracket lookup on the table with one of these names yields a
truthy value (a function, or `Object.prototype` itself for `__proto__`)
that is not a rule object, so the `|| ...['other']` default does not
fire. -/
def objectPrototypeKeys : List String :=
  ["constructor", "hasOwnProperty", "isPrototypeOf", "propertyIsEnumerable",
    "toLocaleString", "toString", "valueOf", "__proto__", "__defineGetter__",
    "__defineSetter__", "__lookupGetter__", "__lookupSetter__"]

/-- Outcome of the bracket lookup with the `||` default: either a usable
rule object, or a truthy non-rule value inherited from
`Object.prototype` — accessing `.supporting.includes` on the latter
throws a `TypeError` in the source. -/
inductive RuleLookup where
  | rule (r : WeatherRule)
  | inheritedJunk
deriving DecidableEq

/-- The lookup
`DAMAGE_WEATHER_CORRELATION[damageType] || DAMAGE_WEATHER_CORRELATION['other']`:
an own key yields its rule, a name inherited from `Object.prototype`
yields a truthy non-rule value, and any other name is `undefined` (falsy)
and falls back to the `'other'` rule. -/
def damageWeatherLookup (damageType : String) : RuleLookup :=
  if ownRuleKeys.contains damageType then
    .rule (damageWeatherCorrelation damageType)
  else if objectPrototypeKeys.contains damageType then .inheritedJunk
  else .rule (damageWeatherCorrelation damageType)

/-- A weather observation as used by the scorer.  Provider data carries
`isMock = false`; the deterministic fallback carries `isMock = true`. -/
structure WeatherData where
  temp : ℚ
  humidity : ℚ
  condition : String
  description : String
  windSpeed : ℚ
  timestamp : ℚ
  isMock : Bool
deriving DecidableEq

/-- Truncation toward zero, the rounding JavaScript's `%` is built on. -/
def jsTrunc (q : ℚ) : ℤ :=
  if 0 ≤ q then ⌊q⌋ else -⌊-q⌋

/-- JavaScript's remainder operator `a % b` on numbers. -/
def jsRem (a b : ℚ) : ℚ := a - b * (jsTrunc (a / b) : ℚ)

/-- `_getMockWeatherData`: the deterministic mock snapshot derived from
the parity expression `(lat + lon) % 2 > 1`. -/
def getMockWeatherData (lat lon now : ℚ) : WeatherData :=
  let isDry := jsRem (lat + lon) 2 > 1
  if isDry then ⟨32, 35, "Clear", "clear sky", 26/5, now, true⟩
  else ⟨24, 75, "Rain", "light rain", 26/5, now, true⟩

/-- Rounding of `x.toFixed(2)` scaled by 100, used to form cache keys. -/
def toFixed2 (q : ℚ) : ℤ :=
  if 0 ≤ q then ⌊q * 100 + 1/2⌋ else -⌊-q * 100 + 1/2⌋

/-- The cache key `` `${lat.toFixed(2)},${lon.toFixed(2)}` ``. -/
def cacheKey (lat lon : ℚ) : ℤ × ℤ := (toFixed2 lat, toFixed2 lon)

/-- A cache entry `{ data, timestamp }`. -/
structure CacheEntry where
  data : WeatherData
  timestamp : ℚ
deriving DecidableEq

/-- The coordinate-keyed weather cache; newest binding first, as produced
by `Map.set`. -/
abbrev WeatherCache := List ((ℤ × ℤ) × CacheEntry)

/-- Lookup in the cache (first, i.e. most recent, binding wins). -/
def cacheFind : WeatherCache → ℤ × ℤ → Option CacheEntry
  | [], _ => none
  | (k, e) :: rest, key => if k = key then some e else cacheFind rest key

/-- `CACHE_TTL = 3600 * 1000` (one hour, in milliseconds). -/
def CACHE_TTL : ℚ := 3600 * 1000

/-- The body the external provider returns on success
(`response.data` projected to the fields the service reads). -/
structure ProviderResponse where
  temp : ℚ
  humidity : ℚ
  condition : String
  description : String
  windSpeed : ℚ
deriving DecidableEq

/-- The external weather provider: `none` models any axios failure.  It is
a pure function of the coordinates, matching one fixed provider state. -/
abbrev Provider := ℚ → ℚ → Option ProviderResponse

/-- Result of one `getCurrentWeather` call: the resolved snapshot, the
cache afterwards, and how often the external provider was called and
answered successfully. -/
structure FetchOutcome where
  data : WeatherData
  cache : WeatherCache
  providerCalls : Nat
  providerSuccesses : Nat
deriving DecidableEq

/-- The part of `getCurrentWeather` past the cache check: missing or
placeholder API key yields the mock, otherwise the provider is called and
on success the snapshot is cached with the current timestamp, on failure
the mock is returned (uncached). -/
def fetchFresh (apiKey : Option String) (provider : Provider)
    (cache : WeatherCache) (now lat lon : ℚ) (key : ℤ × ℤ) : FetchOutcome :=
  match apiKey with
  | none => ⟨getMockWeatherData lat lon now, cache, 0, 0⟩
  | some k =>
    if k = "" ∨ k = "your_openweathermap_api_key_here" then
      ⟨getMockWeatherData lat lon now, cache, 0, 0⟩
    else
      match provider lat lon with
      | some r =>
        let wd : WeatherData :=
          ⟨r.temp, r.humidity, r.condition, r.description, r.windSpeed, now, false⟩
        ⟨wd, (key, ⟨wd, now⟩) :: cache, 1, 1⟩
      | none => ⟨getMockWeatherData lat lon now, cache, 1, 0⟩

/-- `getCurrentWeather(lat, lon)`: serve a non-expired cache entry for the
2-decimal cell, otherwise resolve fresh data. -/
def getCurrentWeather (apiKey : Option String) (provider : Provider)
    (cache : WeatherCache) (now lat lon : ℚ) : FetchOutcome :=
  let key := cacheKey lat lon
  match cacheFind cache key with
  | some entry =>
    if now - entry.timestamp < CACHE_TTL then ⟨entry.data, cache, 0, 0⟩
    else fetchFresh apiKey provider cache now lat lon key
  | none => fetchFresh apiKey provider cache now lat lon key

/-- Status values produced by the weather scorer. -/
inductive WeatherStatus where
  | MATCH
  | MISMATCH
  | NEUTRAL
  | UNKNOWN
deriving DecidableEq

/-- The detail strings pushed by `verifyWeatherDamageCorrelation`,
abstracted to tags carrying the interpolated data. -/
inductive WeatherDetail where
  | supportsCondition (cond damageType : String)
  | contradictsCondition (cond damageType : String)
  | highTemperature (t : ℚ)
  | lowTemperature (t : ℚ)
  | lowHumidity (h : ℚ)
  | highHumidity (h : ℚ)
deriving DecidableEq

/-- Comparison `x > t` against an optional rule field; comparison with an
absent (`undefined`) field is false. -/
def optGT (x : ℚ) : Option ℚ → Bool
  | some t => decide (t < x)
  | none => false

/-- Comparison `x < t` against an optional rule field; comparison with an
absent (`undefined`) field is false. -/
def optLT (x : ℚ) : Option ℚ → Bool
  | some t => decide (x < t)
  | none => false

/-- Score contribution of the supporting/contradicting condition check. -/
def condDelta (r : WeatherRule) (c : String) : ℚ :=
  if r.supporting.contains c then 3/10
  else if r.contradicting.contains c then -(4/10)
  else 0

/-- True when the condition check takes the contradicting branch, which
forces `status = 'MISMATCH'`. -/
def condForced (r : WeatherRule) (c : String) : Bool :=
  !r.supporting.contains c && r.contradicting.contains c

/-- Score contribution of the drought temperature check. -/
def drTempDelta (r : WeatherRule) (t : ℚ) : ℚ :=
  if optGT t r.minTemp then 2/10
  else if t < 20 then -(2/10)
  else 0

/-- Score contribution of the drought humidity check. -/
def drHumDelta (r : WeatherRule) (h : ℚ) : ℚ :=
  if optLT h r.maxHumidity then 1/10
  else if h > 80 then -(3/10)
  else 0

/-- True when the drought humidity check takes the `> 80` branch, which
forces `status = 'MISMATCH'`. -/
def drHumForced (r : WeatherRule) (h : ℚ) : Bool :=
  !optLT h r.maxHumidity && decide (h > 80)

/-- The accumulated score of `verifyWeatherDamageCorrelation` before the
final cap: neutral `0.5`, the condition delta, and for the drought code
the two auxiliary numeric checks. -/
def rawWeatherScore (damageType : String) (w : WeatherData) : ℚ :=
  let r := damageWeatherCorrelation damageType
  1/2 + condDelta r w.condition +
    (if damageType = "DR" then drTempDelta r w.temp + drHumDelta r w.humidity
     else 0)

/-- True when either forced-`MISMATCH` assignment of
`verifyWeatherDamageCorrelation` executed. -/
def weatherForced (damageType : String) (w : WeatherData) : Bool :=
  let r := damageWeatherCorrelation damageType
  condForced r w.condition ||
    (damageType == "DR" && drHumForced r w.humidity)

/-- The cap `Math.max(0.1, Math.min(0.99, score))`. -/
def capWeatherScore (s : ℚ) : ℚ := jsMax (1/10) (jsMin (99/100) s)

/-- The capped score returned by `verifyWeatherDamageCorrelation`. -/
def weatherScore (damageType : String) (w : WeatherData) : ℚ :=
  capWeatherScore (rawWeatherScore damageType w)

/-- Final status of `verifyWeatherDamageCorrelation`: the forced value if
any, then the `score > 0.7` override to `MATCH`, then the `score < 0.3`
override to `MISMATCH`, in source order. -/
def weatherStatusOf (damageType : String) (w : WeatherData) : WeatherStatus :=
  let score := weatherScore damageType w
  let status0 := if weatherForced damageType w then WeatherStatus.MISMATCH
    else WeatherStatus.NEUTRAL
  let status1 := if score > 7/10 then WeatherStatus.MATCH else status0
  if score < 3/10 then WeatherStatus.MISMATCH else status1

/-- The detail tags pushed by the condition check. -/
def condDetails (r : WeatherRule) (c damageType : String) :
    List WeatherDetail :=
  if r.supporting.contains c then [.supportsCondition c damageType]
  else if r.contradicting.contains c then [.contradictsCondition c damageType]
  else []

/-- The detail tags pushed by the drought-specific checks. -/
def drDetails (r : WeatherRule) (t h : ℚ) : List WeatherDetail :=
  (if optGT t r.minTemp then [WeatherDetail.highTemperature t]
   else if t < 20 then [WeatherDetail.lowTemperature t]
   else []) ++
  (if optLT h r.maxHumidity then [WeatherDetail.lowHumidity h]
   else if h > 80 then [WeatherDetail.highHumidity h]
   else [])

/-- All detail tags of one weather verification. -/
def weatherDetails (damageType : String) (w : WeatherData) :
    List WeatherDetail :=
  let r := damageWeatherCorrelation damageType
  condDetails r w.condition damageType ++
    (if damageType = "DR" then drDetails r w.temp w.humidity else [])

/-- The result object of `verifyWeatherDamageCorrelation`.  The
`weather_context` field is absent (`none`) on the catch branch, whose
object carries only `status`, `score` and an error message (the message
text is not modelled). -/
structure WeatherResult where
  status : WeatherStatus
  score : ℚ
  weather_context : Option WeatherData
  details : List WeatherDetail
deriving DecidableEq

/-- The correlation scoring of `verifyWeatherDamageCorrelation` applied to
one resolved weather observation, in the cases where the rule lookup
yielded a usable rule. -/
def correlateWeather (damageType : String) (w : WeatherData) : WeatherResult :=
  ⟨weatherStatusOf damageType w, weatherScore damageType w, some w,
    weatherDetails damageType w⟩

/-- The scoring step together with the surrounding try/catch: when the
rule lookup yields a name inherited from `Object.prototype`,
`correlation.supporting` is `undefined`, `.includes` throws, and the
catch returns `{status: 'UNKNOWN', score: 0.5}`. -/
def correlateWeatherChecked (damageType : String) (w : WeatherData) :
    WeatherResult :=
  match damageWeatherLookup damageType with
  | .rule _ => correlateWeather damageType w
  | .inheritedJunk => ⟨.UNKNOWN, 1/2, none, []⟩

/-- Result of one full `verifyWeatherDamageCorrelation` call, with the
cache state and provider-call accounting of the embedded weather fetch.
The only fallible step of the body is the rule-field access modelled in
`correlateWeatherChecked`; it happens after the weather fetch, so the
fetch's cache update survives even on the catch branch. -/
structure VerifyOutcome where
  result : WeatherResult
  cache : WeatherCache
  providerCalls : Nat
  providerSuccesses : Nat
deriving DecidableEq

/-- `verifyWeatherDamageCorrelation(lat, lon, damageType, claimTimestamp)`:
resolve a snapshot via `getCurrentWeather`, then score it against the
damage-type rule under the try/catch.  `claimTimestamp` is accepted and
ignored by the source (current weather is used as a proxy). -/
def verifyWeatherDamageCorrelation (apiKey : Option String)
    (provider : Provider) (cache : WeatherCache) (now lat lon : ℚ)
    (damageType : String) (claimTimestamp : ℚ) : VerifyOutcome :=
  let f := getCurrentWeather apiKey provider cache now lat lon
  ⟨correlateWeatherChecked damageType f.data, f.cache, f.providerCalls,
    f.providerSuccesses⟩

/-! ## Decision engine (server: `determineClaimDecision`,
`mapPythonToFrontend`, `generateFallbackResult`) -/

/-- The decision enumeration. -/
inductive Decision where
  | APPROVE
  | MANUAL_REVIEW
  | REJECT
deriving DecidableEq

/-- The record returned by `determineClaimDecision`.  The free-text
`reason`, `next_steps` and `user_message` templates are display data fully
determined by the branch and are not modelled. -/
structure ClaimDecision where
  decision : Decision
  status : String
  action : String
  risk : String
  manual_review_required : Bool
  payout_approved : Bool
deriving DecidableEq

/-- `overall_assessment` of a Python pipeline result (the fields the
decision engine and the fallback generator touch). -/
structure OverallAssessment where
  final_decision : Option String
  confidence_score : Option ℚ
  risk_level : Option String
  manual_review_required : Option Bool
deriving DecidableEq

/-- `payout_calculation` of a Python pipeline result. -/
structure PayoutCalculation where
  sum_insured : Option ℚ
  damage_percent : Option ℚ
  final_payout_amount : Option ℚ
  currency : Option String
deriving DecidableEq

/-- `damage_assessment` of a Python pipeline result. -/
structure DamageAssessment where
  ai_calculated_damage_percent : Option ℚ
  farmer_claimed_damage_percent : Option ℚ
  final_damage_percent : Option ℚ
  severity : Option String
deriving DecidableEq

/-- A Python pipeline result, projected to the fields the embedded server
functions read.  Every field is optional: the source guards each access
with optional chaining. -/
structure PythonResult where
  overall_assessment : Option OverallAssessment
  payout_calculation : Option PayoutCalculation
  damage_assessment : Option DamageAssessment
deriving DecidableEq

/-- The expression `pythonResult.overall_assessment?.confidence_score || 0`
(`0` is falsy, so `|| 0` is the same as defaulting a missing value). -/
def confidenceOf (p : PythonResult) : ℚ :=
  (p.overall_assessment.bind fun a => a.confidence_score).getD 0

/-- `determineClaimDecision(pythonResult)`: the three confidence bands with
inclusive lower bounds `0.70` and `0.30`. -/
def determineClaimDecision (p : PythonResult) : ClaimDecision :=
  let confidence := confidenceOf p
  if 7/10 ≤ confidence then
    ⟨.APPROVE, "approved", "PROCESS_PAYOUT", "low", false, true⟩
  else if 3/10 ≤ confidence ∧ confidence < 7/10 then
    ⟨.MANUAL_REVIEW, "manual_review", "SCHEDULE_MANUAL_REVIEW", "medium",
      true, false⟩
  else
    ⟨.REJECT, "rejected", "REQUEST_RESUBMISSION", "high", false, false⟩

/-- Modelled from the spec: the upstream Python pipeline
(`cropfarmPY/main_pipeline.py`, not present under `src/`) supplies the
`payout_calculation` object with
`final_payout_amount = sum_insured × damage_percent / 100`. -/
def pythonPayoutCalculation (sum_insured damage_percent : ℚ) :
    PayoutCalculation :=
  ⟨some sum_insured, some damage_percent,
    some (sum_insured * damage_percent / 100), some "INR"⟩

/-- `generateFallbackResult(files, reason)`: the constant fallback object
(only the fields the data model covers; `files` and `reason` flow only
into free-text/audit fields). -/
def generateFallbackResult (reason : String) : PythonResult :=
  ⟨some ⟨some "MANUAL_REVIEW", some (3/10), some "medium", some true⟩,
    some ⟨some 100000, some (85/2), some 42500, some "INR"⟩,
    some ⟨some 35, some 50, some (85/2), some "moderate"⟩⟩

/-- The `payout_status` values of `mapPythonToFrontend`. -/
inductive PayoutStatus where
  | processing
  | pending_review
  | rejected
deriving DecidableEq

/-- The `payout_calculation` object produced by `mapPythonToFrontend`:
the Python fields spread in, plus the approval flag, the payout status and
the gated final amount. -/
structure FrontendPayout where
  sum_insured : Option ℚ
  damage_percent : Option ℚ
  currency : Option String
  payout_approved : Bool
  payout_status : PayoutStatus
  final_payout_amount : Option ℚ
deriving DecidableEq

/-- The `final_decision` object produced by `mapPythonToFrontend`. -/
structure FinalDecision where
  decision : Decision
  risk_level : String
  manual_review_required : Bool
  confidence_score : ℚ
  threshold_applied : String
  payout_approved : Bool
deriving DecidableEq

/-- The frontend-facing projection produced by `mapPythonToFrontend`. -/
structure FrontendResult where
  overall_confidence : ℚ
  final_decision : FinalDecision
  payout_calculation : FrontendPayout
deriving DecidableEq

/-- `mapPythonToFrontend(pythonResult)`: derive the decision, then build
the frontend payload; the final payout amount passes through from the
Python result only when the payout is approved and is `0` otherwise. -/
def mapPythonToFrontend (p : PythonResult) : FrontendResult :=
  let confidence := confidenceOf p
  let decision := determineClaimDecision p
  ⟨confidence,
    ⟨decision.decision, decision.risk, decision.manual_review_required,
      confidence,
      (if 7/10 ≤ confidence then "auto_approve"
       else if 3/10 ≤ confidence then "manual_review" else "reject_retry"),
      decision.payout_approved⟩,
    ⟨p.payout_calculation.bind (fun c => c.sum_insured),
      p.payout_calculation.bind (fun c => c.damage_percent),
      p.payout_calculation.bind (fun c => c.currency),
      decision.payout_approved,
      (if decision.decision = .APPROVE then .processing
       else if decision.decision = .MANUAL_REVIEW then .pending_review
       else .rejected),
      (if decision.payout_approved then
        p.payout_calculation.bind (fun c => c.final_payout_amount)
       else some 0)⟩⟩

/-! ## Elementary facts about `jsMax` and `jsMin` -/

theorem le_jsMax_left (a b : ℚ) : a ≤ jsMax a b := by
  unfold jsMax
  split_ifs with h
  · exact h
  · exact le_rfl

theorem jsMax_le {a b c : ℚ} (ha : a ≤ c) (hb : b ≤ c) : jsMax a b ≤ c := by
  unfold jsMax
  split_ifs <;> assumption

theorem jsMin_le_left (a b : ℚ) : jsMin a b ≤ a := by
  unfold jsMin
  split_ifs with h
  · exact le_rfl
  · exact (not_le.mp h).le

theorem jsMin_le_right (a b : ℚ) : jsMin a b ≤ b := by
  unfold jsMin
  split_ifs with h
  · exact h
  · exact le_rfl

/-! ## Lemmas about the weather scorer -/

theorem capWeatherScore_bounds (s : ℚ) :
    1/10 ≤ capWeatherScore s ∧ capWeatherScore s ≤ 99/100 :=
  ⟨le_jsMax_left _ _, jsMax_le (by norm_num) (jsMin_le_left _ _)⟩

theorem capWeatherScore_le (s : ℚ) (h : s ≤ 7/10) : capWeatherScore s ≤ 7/10 :=
  jsMax_le (by norm_num) (le_trans (jsMin_le_right _ _) h)

theorem condDelta_le (r : WeatherRule) (c : String) : condDelta r c ≤ 3/10 := by
  unfold condDelta
  split_ifs <;> norm_num

theorem drTempDelta_le (r : WeatherRule) (t : ℚ) : drTempDelta r t ≤ 2/10 := by
  unfold drTempDelta
  split_ifs <;> norm_num

theorem drHumDelta_le (r : WeatherRule) (h : ℚ) : drHumDelta r h ≤ 1/10 := by
  unfold drHumDelta
  split_ifs <;> norm_num

theorem condDelta_of_forced (r : WeatherRule) (c : String)
    (h : condForced r c = true) : condDelta r c = -(4/10) := by
  unfold condForced at h
  rw [Bool.and_eq_true, Bool.not_eq_true'] at h
  unfold condDelta
  rw [h.1, h.2]
  norm_num

theorem drHumDelta_of_forced (r : WeatherRule) (h : ℚ)
    (hf : drHumForced r h = true) : drHumDelta r h = -(3/10) := by
  unfold drHumForced at hf
  rw [Bool.and_eq_true, Bool.not_eq_true'] at hf
  have h80 : h > 80 := of_decide_eq_true hf.2
  unfold drHumDelta
  rw [hf.1]
  simp [h80]

theorem contradicting_not_supporting (dt c : String)
    (h : (damageWeatherCorrelation dt).contradicting.contains c = true) :
    (damageWeatherCorrelation dt).supporting.contains c = false := by
  have hmem : c ∈ (damageWeatherCorrelation dt).contradicting :=
    List.elem_iff.mp h
  rw [← Bool.not_eq_true]
  intro hs
  have hsm : c ∈ (damageWeatherCorrelation dt).supporting := List.elem_iff.mp hs
  unfold damageWeatherCorrelation at hmem hsm
  split_ifs at hmem hsm <;> fin_cases hmem <;> revert hsm <;> decide

theorem condForced_of_contradicting (dt : String) (c : String)
    (h : (damageWeatherCorrelation dt).contradicting.contains c = true) :
    condForced (damageWeatherCorrelation dt) c = true := by
  unfold condForced
  rw [contradicting_not_supporting dt c h, h]
  rfl

theorem drought_maxHumidity_lt (hum : ℚ) (hhum : 80 < hum) :
    optLT hum (damageWeatherCorrelation "DR").maxHumidity = false := by
  show optLT hum (some 40) = false
  unfold optLT
  exact decide_eq_false (by linarith)

theorem drHumForced_of_humidity (hum : ℚ) (hhum : 80 < hum) :
    drHumForced (damageWeatherCorrelation "DR") hum = true := by
  unfold drHumForced
  rw [drought_maxHumidity_lt hum hhum]
  simp [hhum]

theorem weatherForced_of (dt : String) (w : WeatherData)
    (h : (damageWeatherCorrelation dt).contradicting.contains w.condition = true ∨
      (dt = "DR" ∧ 80 < w.humidity)) : weatherForced dt w = true := by
  rcases h with hcon | ⟨hdt, hhum⟩
  · simp [weatherForced, condForced_of_contradicting dt w.condition hcon]
  · subst hdt
    simp [weatherForced, drHumForced_of_humidity w.humidity hhum]

theorem rawWeatherScore_le_of_forced (dt : String) (w : WeatherData)
    (h : (damageWeatherCorrelation dt).contradicting.contains w.condition = true ∨
      (dt = "DR" ∧ 80 < w.humidity)) : rawWeatherScore dt w ≤ 7/10 := by
  simp only [rawWeatherScore]
  rcases h with hcon | ⟨hdt, hhum⟩
  · rw [condDelta_of_forced _ _ (condForced_of_contradicting dt w.condition hcon)]
    by_cases hdt : dt = "DR"
    · rw [if_pos hdt]
      have h1 := drTempDelta_le (damageWeatherCorrelation dt) w.temp
      have h2 := drHumDelta_le (damageWeatherCorrelation dt) w.humidity
      linarith
    · rw [if_neg hdt]
      norm_num
  · subst hdt
    rw [if_pos rfl,
      drHumDelta_of_forced _ _ (drHumForced_of_humidity w.humidity hhum)]
    have h1 := condDelta_le (damageWeatherCorrelation "DR") w.condition
    have h2 := drTempDelta_le (damageWeatherCorrelation "DR") w.temp
    linarith

theorem weatherStatusOf_of_forced (dt : String) (w : WeatherData)
    (hf : weatherForced dt w = true) (hb : rawWeatherScore dt w ≤ 7/10) :
    weatherStatusOf dt w = .MISMATCH := by
  have hcap : weatherScore dt w ≤ 7/10 := capWeatherScore_le _ hb
  simp only [weatherStatusOf, hf]
  rw [if_neg (not_lt.mpr hcap)]
  split_ifs <;> rfl

/-- C4: whenever a forced `MISMATCH` occurs in the weather correlation
scoring — the observed condition is in the rule's contradicting set, or
for damage type `DR` the humidity exceeds 80 — the returned status is
`MISMATCH`: the forced status is never upgraded to `MATCH` or `NEUTRAL` by
the final score-threshold resolution (the accumulated score can never
exceed `0.7` on a forced path, so the `MATCH` override cannot fire). -/
theorem forced_mismatch_never_upgraded (damageType : String) (w : WeatherData)
    (h : (damageWeatherCorrelation damageType).contradicting.contains w.condition = true ∨
      (damageType = "DR" ∧ 80 < w.humidity)) :
    (correlateWeather damageType w).status = .MISMATCH :=
  weatherStatusOf_of_forced damageType w (weatherForced_of damageType w h)
    (rawWeatherScore_le_of_forced damageType w h)

/-- Witness for C4: damage type `DR` with condition `Rain` and humidity
`90` satisfies the forced-mismatch hypothesis and yields `MISMATCH`. -/
theorem forced_mismatch_never_upgraded_witness :
    ((damageWeatherCorrelation "DR").contradicting.contains
        (WeatherData.condition ⟨24, 90, "Rain", "light rain", 5, 0, false⟩) = true ∨
      ("DR" = "DR" ∧ (80 : ℚ) <
        WeatherData.humidity ⟨24, 90, "Rain", "light rain", 5, 0, false⟩)) ∧
    (correlateWeather "DR" ⟨24, 90, "Rain", "light rain", 5, 0, false⟩).status
      = .MISMATCH :=
  ⟨by decide, forced_mismatch_never_upgraded "DR"
    ⟨24, 90, "Rain", "light rain", 5, 0, false⟩ (by decide)⟩

/-- C3 (amended): the score of every weather correlation verification lies
in the closed interval `[0.1, 0.99]` — the cap on the scoring path, and
the literal `0.5` of the catch branch. -/
theorem weather_score_within_closed_bounds (apiKey : Option String)
    (provider : Provider) (cache : WeatherCache)
    (now lat lon claimTimestamp : ℚ) (damageType : String) :
    1/10 ≤ (verifyWeatherDamageCorrelation apiKey provider cache now lat lon
        damageType claimTimestamp).result.score ∧
      (verifyWeatherDamageCorrelation apiKey provider cache now lat lon
        damageType claimTimestamp).result.score ≤ 99/100 := by
  show 1/10 ≤ (correlateWeatherChecked damageType
      (getCurrentWeather apiKey provider cache now lat lon).data).score ∧
    (correlateWeatherChecked damageType
      (getCurrentWeather apiKey provider cache now lat lon).data).score ≤
      99/100
  unfold correlateWeatherChecked
  cases hdl : damageWeatherLookup damageType with
  | rule r => exact capWeatherScore_bounds _
  | inheritedJunk => constructor <;> norm_num

/-- Counterexample to C3 as stated: both bounds are attained.  With no API
key configured, the mock snapshot at `(0, 0)` is `Rain` with humidity 75,
and for damage type `DR` the accumulated score is `0.5 - 0.4 = 0.1`, which
the cap `Math.max(0.1, Math.min(0.99, score))` keeps, violating the
strictly open bound `0.1 < score`.  At `(1.5, 0)` the mock is dry
(`Clear`, 32 °C, 35 %), so for `DR` the accumulated score is
`0.5 + 0.3 + 0.2 + 0.1 = 1.1`, capped to exactly `0.99`, violating the
strictly open bound `score < 0.99`. -/
theorem weather_score_attains_closed_bounds :
    (verifyWeatherDamageCorrelation none (fun _ _ => none) [] 0 0 0 "DR"
        0).result.score = 1/10 ∧
    (verifyWeatherDamageCorrelation none (fun _ _ => none) [] 0 (3/2) 0 "DR"
        0).result.score = 99/100 ∧
    ¬ (1/10 < (verifyWeatherDamageCorrelation none (fun _ _ => none) [] 0 0 0
        "DR" 0).result.score ∧
      (verifyWeatherDamageCorrelation none (fun _ _ => none) [] 0 0 0 "DR"
        0).result.score < 99/100) ∧
    ¬ ((verifyWeatherDamageCorrelation none (fun _ _ => none) [] 0 (3/2) 0
        "DR" 0).result.score < 99/100) := by
  have hlo : (verifyWeatherDamageCorrelation none (fun _ _ => none) [] 0 0 0
      "DR" 0).result.score = 1/10 := by
    with_unfolding_all rfl
  have hhi : (verifyWeatherDamageCorrelation none (fun _ _ => none) [] 0
      (3/2) 0 "DR" 0).result.score = 99/100 := by
    with_unfolding_all rfl
  rw [hlo, hhi]
  exact ⟨rfl, rfl, fun hcontra => absurd hcontra.1 (lt_irrefl _),
    lt_irrefl _⟩

/-- Counterexample to C6 as stated: `"constructor"` has no entry in the
correlation table, yet the verification returns status `UNKNOWN`, not
`NEUTRAL` — the bracket lookup finds `Object.prototype.constructor`
(truthy), so the `|| ...['other']` default does not fire,
`correlation.supporting` is `undefined`, `.includes` throws, and the
catch supplies `{status: 'UNKNOWN', score: 0.5}`. -/
theorem prototype_key_returns_unknown :
    (("constructor" : String) ≠ "DR" ∧ ("constructor" : String) ≠ "ND" ∧
      ("constructor" : String) ≠ "WD" ∧ ("constructor" : String) ≠ "G" ∧
      ("constructor" : String) ≠ "other") ∧
    (verifyWeatherDamageCorrelation none (fun _ _ => none) [] 0 5 5
        "constructor" 0).result.status = .UNKNOWN ∧
    WeatherStatus.UNKNOWN ≠ .NEUTRAL := by
  refine ⟨by decide, ?_, by decide⟩
  with_unfolding_all rfl

/-- C6 (amended): a damage-type code with no entry in
`DAMAGE_WEATHER_CORRELATION` that is not a property name inherited from
`Object.prototype` resolves to the default neutral rule: the weather
verification returns status `NEUTRAL` with the untouched neutral score
`0.5`, and no exception escapes.  (For the inherited names the scoring
body throws internally and the catch yields `UNKNOWN`, score `0.5` — see
the counterexample.) -/
theorem unknown_damage_code_neutral (apiKey : Option String)
    (provider : Provider) (cache : WeatherCache)
    (now lat lon claimTimestamp : ℚ) (damageType : String)
    (h1 : damageType ≠ "DR") (h2 : damageType ≠ "ND") (h3 : damageType ≠ "WD")
    (h4 : damageType ≠ "G") (h5 : damageType ≠ "other")
    (h6 : damageType ∉ objectPrototypeKeys) :
    (verifyWeatherDamageCorrelation apiKey provider cache now lat lon
        damageType claimTimestamp).result.status = .NEUTRAL ∧
    (verifyWeatherDamageCorrelation apiKey provider cache now lat lon
        damageType claimTimestamp).result.score = 1/2 := by
  have hr : damageWeatherCorrelation damageType = ⟨[], [], none, none⟩ := by
    unfold damageWeatherCorrelation
    rw [if_neg h1, if_neg h2, if_neg h3, if_neg h4]
  have hown : ownRuleKeys.contains damageType = false := by
    rw [← Bool.not_eq_true]
    intro hc
    have hm := List.elem_iff.mp hc
    simp only [ownRuleKeys, List.mem_cons, List.not_mem_nil, or_false] at hm
    rcases hm with rfl | rfl | rfl | rfl | rfl
    exacts [h1 rfl, h2 rfl, h3 rfl, h4 rfl, h5 rfl]
  have hproto : objectPrototypeKeys.contains damageType = false := by
    rw [← Bool.not_eq_true]
    intro hc
    exact h6 (List.elem_iff.mp hc)
  have hlk : damageWeatherLookup damageType =
      .rule (damageWeatherCorrelation damageType) := by
    unfold damageWeatherLookup
    rw [hown, hproto]
    simp
  have hcc : ∀ w, correlateWeatherChecked damageType w =
      correlateWeather damageType w := by
    intro w
    unfold correlateWeatherChecked
    rw [hlk]
  have hres : (verifyWeatherDamageCorrelation apiKey provider cache now lat
      lon damageType claimTimestamp).result =
      correlateWeather damageType
        (getCurrentWeather apiKey provider cache now lat lon).data := by
    show correlateWeatherChecked damageType _ = _
    exact hcc _
  rw [hres]
  have hraw : ∀ w : WeatherData, rawWeatherScore damageType w = 1/2 := by
    intro w
    simp only [rawWeatherScore]
    rw [hr, if_neg h1]
    simp [condDelta]
  have hscore : ∀ w : WeatherData, weatherScore damageType w = 1/2 := by
    intro w
    unfold weatherScore
    rw [hraw w]
    with_unfolding_all rfl
  refine ⟨?_, hscore _⟩
  show weatherStatusOf damageType _ = .NEUTRAL
  have hforced : ∀ w : WeatherData, weatherForced damageType w = false := by
    intro w
    simp only [weatherForced]
    rw [hr]
    simp [condForced, drHumForced, optLT, h1]
  simp only [weatherStatusOf, hscore, hforced]
  norm_num

/-- Witness for C6 (amended): the unknown code `"XX"` satisfies all the
hypotheses — it is none of the five table keys and none of the
`Object.prototype` names — and resolves to `NEUTRAL` with score `0.5`. -/
theorem unknown_damage_code_neutral_witness :
    (("XX" : String) ≠ "DR" ∧ ("XX" : String) ≠ "ND" ∧
      ("XX" : String) ≠ "WD" ∧ ("XX" : String) ≠ "G" ∧
      ("XX" : String) ≠ "other" ∧ ("XX" : String) ∉ objectPrototypeKeys) ∧
    (verifyWeatherDamageCorrelation none (fun _ _ => none) [] 0 5 5 "XX"
        0).result.status = .NEUTRAL ∧
    (verifyWeatherDamageCorrelation none (fun _ _ => none) [] 0 5 5 "XX"
        0).result.score = 1/2 :=
  ⟨by decide, unknown_damage_code_neutral none (fun _ _ => none) [] 0 5 5 0
    "XX" (by decide) (by decide) (by decide) (by decide) (by decide)
    (by decide)⟩

/-! ## Lemmas about the weather cache -/

theorem fetchFresh_successes_le_one (apiKey : Option String)
    (provider : Provider) (cache : WeatherCache) (now lat lon : ℚ)
    (key : ℤ × ℤ) :
    (fetchFresh apiKey provider cache now lat lon key).providerSuccesses ≤ 1 := by
  rcases apiKey with _ | k
  · simp [fetchFresh]
  · by_cases hk : k = "" ∨ k = "your_openweathermap_api_key_here"
    · simp [fetchFresh, hk]
    · rcases hp : provider lat lon with _ | r <;> simp [fetchFresh, hk, hp]

theorem getCurrentWeather_successes_le_one (apiKey : Option String)
    (provider : Provider) (cache : WeatherCache) (now lat lon : ℚ) :
    (getCurrentWeather apiKey provider cache now lat lon).providerSuccesses ≤ 1 := by
  simp only [getCurrentWeather]
  split
  · split_ifs
    · simp
    · exact fetchFresh_successes_le_one ..
  · exact fetchFresh_successes_le_one ..

theorem fetchFresh_success_cached (apiKey : Option String)
    (provider : Provider) (cache : WeatherCache) (now lat lon : ℚ)
    (key : ℤ × ℤ)
    (h : (fetchFresh apiKey provider cache now lat lon key).providerSuccesses = 1) :
    (fetchFresh apiKey provider cache now lat lon key).cache =
      (key, ⟨(fetchFresh apiKey provider cache now lat lon key).data, now⟩) ::
        cache := by
  rcases apiKey with _ | k
  · exact absurd h (by simp [fetchFresh])
  · by_cases hk : k = "" ∨ k = "your_openweathermap_api_key_here"
    · exact absurd h (by simp [fetchFresh, hk])
    · rcases hp : provider lat lon with _ | r
      · exact absurd h (by simp [fetchFresh, hk, hp])
      · simp [fetchFresh, hk, hp]

theorem getCurrentWeather_miss (apiKey : Option String) (provider : Provider)
    (cache : WeatherCache) (now lat lon : ℚ)
    (hc : cacheFind cache (cacheKey lat lon) = none) :
    getCurrentWeather apiKey provider cache now lat lon =
      fetchFresh apiKey provider cache now lat lon (cacheKey lat lon) := by
  simp only [getCurrentWeather]
  rw [hc]

theorem getCurrentWeather_stale (apiKey : Option String) (provider : Provider)
    (cache : WeatherCache) (now lat lon : ℚ) (entry : CacheEntry)
    (hc : cacheFind cache (cacheKey lat lon) = some entry)
    (hstale : ¬ now - entry.timestamp < CACHE_TTL) :
    getCurrentWeather apiKey provider cache now lat lon =
      fetchFresh apiKey provider cache now lat lon (cacheKey lat lon) := by
  simp only [getCurrentWeather]
  rw [hc]
  exact if_neg hstale

theorem getCurrentWeather_hit (apiKey : Option String) (provider : Provider)
    (cache : WeatherCache) (now lat lon : ℚ) (entry : CacheEntry)
    (hc : cacheFind cache (cacheKey lat lon) = some entry)
    (hfresh : now - entry.timestamp < CACHE_TTL) :
    getCurrentWeather apiKey provider cache now lat lon =
      ⟨entry.data, cache, 0, 0⟩ := by
  simp only [getCurrentWeather]
  rw [hc]
  exact if_pos hfresh

theorem getCurrentWeather_success_cached (apiKey : Option String)
    (provider : Provider) (cache : WeatherCache) (now lat lon : ℚ)
    (h1 : (getCurrentWeather apiKey provider cache now lat lon).providerSuccesses = 1) :
    cacheFind (getCurrentWeather apiKey provider cache now lat lon).cache
        (cacheKey lat lon) =
      some ⟨(getCurrentWeather apiKey provider cache now lat lon).data, now⟩ := by
  rcases hc : cacheFind cache (cacheKey lat lon) with _ | entry
  · rw [getCurrentWeather_miss apiKey provider cache now lat lon hc] at h1 ⊢
    rw [fetchFresh_success_cached apiKey provider cache now lat lon _ h1]
    simp [cacheFind]
  · by_cases hfresh : now - entry.timestamp < CACHE_TTL
    · rw [getCurrentWeather_hit apiKey provider cache now lat lon entry hc
        hfresh] at h1
      exact absurd h1 (by simp)
    · rw [getCurrentWeather_stale apiKey provider cache now lat lon entry hc
        hfresh] at h1 ⊢
      rw [fetchFresh_success_cached apiKey provider cache now lat lon _ h1]
      simp [cacheFind]

/-- C5 (amended): only snapshots fetched successfully from the provider
are stored in the cache before being returned (mock fallbacks are
returned uncached), and two lookups whose coordinates round to the same
2-decimal cell within the 1-hour TTL window trigger at most one
successful provider call — a first successful call is cached under the
shared key with the resolution timestamp, so the second lookup is served
from the cache. -/
theorem at_most_one_successful_provider_call (apiKey : Option String)
    (provider : Provider) (cache : WeatherCache)
    (now1 now2 lat1 lon1 lat2 lon2 : ℚ)
    (hkey : cacheKey lat1 lon1 = cacheKey lat2 lon2)
    (h0 : 0 ≤ now2 - now1) (hTTL : now2 - now1 < CACHE_TTL) :
    ((getCurrentWeather apiKey provider cache now1 lat1 lon1).providerSuccesses = 1 →
      cacheFind (getCurrentWeather apiKey provider cache now1 lat1 lon1).cache
          (cacheKey lat1 lon1) =
        some ⟨(getCurrentWeather apiKey provider cache now1 lat1 lon1).data, now1⟩) ∧
    (getCurrentWeather apiKey provider cache now1 lat1 lon1).providerSuccesses +
      (getCurrentWeather apiKey provider
        (getCurrentWeather apiKey provider cache now1 lat1 lon1).cache
        now2 lat2 lon2).providerSuccesses ≤ 1 := by
  refine ⟨getCurrentWeather_success_cached apiKey provider cache now1 lat1 lon1, ?_⟩
  have hle1 := getCurrentWeather_successes_le_one apiKey provider cache now1 lat1 lon1
  rcases Nat.lt_or_ge
      (getCurrentWeather apiKey provider cache now1 lat1 lon1).providerSuccesses 1
    with hlt | hge
  · have hle2 := getCurrentWeather_successes_le_one apiKey provider
      (getCurrentWeather apiKey provider cache now1 lat1 lon1).cache now2 lat2 lon2
    omega
  · have h1' : (getCurrentWeather apiKey provider cache now1 lat1
        lon1).providerSuccesses = 1 := by omega
    have hfind := getCurrentWeather_success_cached apiKey provider cache now1
      lat1 lon1 h1'
    have hsecond : (getCurrentWeather apiKey provider
        (getCurrentWeather apiKey provider cache now1 lat1 lon1).cache
        now2 lat2 lon2).providerSuccesses = 0 := by
      rw [getCurrentWeather_hit apiKey provider _ now2 lat2 lon2
        ⟨(getCurrentWeather apiKey provider cache now1 lat1 lon1).data, now1⟩
        (by rw [← hkey]; exact hfind) hTTL]
    omega

/-! ## Lemmas about the geolocation scorer -/

theorem clamp01_bounds (x : ℚ) : 0 ≤ clamp01 x ∧ clamp01 x ≤ 1 :=
  ⟨le_jsMax_left _ _, jsMax_le (by norm_num) (jsMin_le_left _ _)⟩

theorem spreadDetail_isOutliersTag (s : ℚ) :
    (spreadDetail s).isOutliersTag = false := by
  unfold spreadDetail
  split_ifs <;> rfl

theorem isOutliersTag_userMismatch (m : ℚ) :
    (GeoDetail.userMismatch m).isOutliersTag = false := rfl

theorem isOutliersTag_userMatch (m : ℚ) :
    (GeoDetail.userMatch m).isOutliersTag = false := rfl

theorem verifyMain_score_bounds (G : GeoFns) (vc : List Coord)
    (ul : Option Coord) :
    0 ≤ (verifyMain G vc ul).score ∧ (verifyMain G vc ul).score ≤ 1 := by
  rcases ul with _ | u
  · exact clamp01_bounds _
  · simp only [verifyMain]
    split_ifs <;> exact clamp01_bounds _

/-- C7: the geolocation verification clamps its score into `[0, 1]` on
every path — early neutral returns included — for every coordinate list,
every optional user location and every geodesic primitive, however many
penalties accumulate. -/
theorem geo_score_clamped_unit_interval (G : GeoFns)
    (cl : Option (List (Option RawPoint))) (ul : Option Coord) :
    0 ≤ (verifyCoordinates G cl ul).score ∧
      (verifyCoordinates G cl ul).score ≤ 1 := by
  rcases cl with _ | l
  · constructor <;> norm_num [verifyCoordinates]
  · simp only [verifyCoordinates]
    split_ifs
    · constructor <;> norm_num
    · constructor <;> norm_num
    · exact verifyMain_score_bounds ..

/-- C8: a missing, empty, or all-invalid coordinate list makes the
geolocation verification return status `WARNING` with score exactly `0.5`
and a non-empty explanatory detail — absence of location data is neutral
uncertainty, not a failure. -/
theorem no_location_evidence_neutral_warning (G : GeoFns) (ul : Option Coord)
    (cl : Option (List (Option RawPoint)))
    (h : cl = none ∨ ∃ l, cl = some l ∧ l.filterMap validOf = []) :
    (verifyCoordinates G cl ul).status = .WARNING ∧
    (verifyCoordinates G cl ul).score = 1/2 ∧
    (verifyCoordinates G cl ul).details ≠ [] := by
  rcases h with rfl | ⟨l, rfl, hl⟩
  · exact ⟨rfl, rfl, by simp [verifyCoordinates]⟩
  · simp only [verifyCoordinates]
    by_cases he : l.isEmpty
    · rw [if_pos he]
      exact ⟨rfl, rfl, by simp⟩
    · rw [if_neg he, hl]
      exact ⟨rfl, rfl, by simp⟩

/-- Witness for C8: a singleton list whose only point has a missing
latitude filters down to the empty list and is classified `WARNING` with
score `0.5`. -/
theorem no_location_evidence_neutral_warning_witness :
    ((some [some (⟨none, some 1⟩ : RawPoint)] =
        (none : Option (List (Option RawPoint)))) ∨
      ∃ l, some [some (⟨none, some 1⟩ : RawPoint)] = some l ∧
        l.filterMap validOf = []) ∧
    (verifyCoordinates ⟨fun _ => ⟨0, 0⟩, fun _ _ => 0⟩
        (some [some ⟨none, some 1⟩]) none).status = .WARNING ∧
    (verifyCoordinates ⟨fun _ => ⟨0, 0⟩, fun _ _ => 0⟩
        (some [some ⟨none, some 1⟩]) none).score = 1/2 ∧
    (verifyCoordinates ⟨fun _ => ⟨0, 0⟩, fun _ _ => 0⟩
        (some [some ⟨none, some 1⟩]) none).details ≠ [] :=
  ⟨Or.inr ⟨_, rfl, rfl⟩,
    no_location_evidence_neutral_warning ⟨fun _ => ⟨0, 0⟩, fun _ _ => 0⟩ none
      (some [some ⟨none, some 1⟩]) (Or.inr ⟨_, rfl, rfl⟩)⟩

theorem geoBridge (G : GeoFns) (l : List (Option RawPoint)) (ul : Option Coord)
    (hvc : l.filterMap validOf ≠ []) :
    verifyCoordinates G (some l) ul = verifyMain G (l.filterMap validOf) ul := by
  have hl : l ≠ [] := by
    intro h
    subst h
    exact hvc rfl
  simp only [verifyCoordinates]
  rw [if_neg (by simpa [List.isEmpty_iff] using hl),
    if_neg (by simpa [List.isEmpty_iff] using hvc)]

/-- C9: with `avg` the mean distance of the valid points to the centroid,
outlier detection is skipped entirely when `avg < 10` metres (no outlier
detail, hence no penalty); otherwise exactly the points whose distance
exceeds `3 × avg` are flagged, and when any are flagged one aggregated
detail line carrying their count is emitted and the score loses `0.1` per
flagged point before the final clamp. -/
theorem outlier_pass_guard_and_penalty (G : GeoFns)
    (l : List (Option RawPoint)) (ul : Option Coord)
    (vc : List Coord) (center : Coord) (avg : ℚ)
    (hvcdef : vc = l.filterMap validOf) (hvc : vc ≠ [])
    (hcenter : center = G.getCenter vc) (havg : avg = avgDistOf G vc center) :
    (avg < 10 →
      detectOutliers G vc center = [] ∧
      hasOutlierDetail (verifyCoordinates G (some l) ul) = false) ∧
    (10 ≤ avg →
      detectOutliers G vc center =
        vc.filter (fun c => G.getDistance center c > avg * 3) ∧
      (0 < (detectOutliers G vc center).length →
        GeoDetail.outliers (detectOutliers G vc center).length ∈
          (verifyCoordinates G (some l) ul).details ∧
        (ul = none →
          (verifyCoordinates G (some l) ul).score =
            clamp01 (spreadScore (maxDistOf G vc center / 1000) -
              ((detectOutliers G vc center).length : ℚ) * (1/10))))) := by
  subst havg hcenter hvcdef
  have hbridge := geoBridge G l ul hvc
  constructor
  · intro ha
    have houts : detectOutliers G (l.filterMap validOf)
        (G.getCenter (l.filterMap validOf)) = [] := by
      unfold detectOutliers
      exact if_pos ha
    refine ⟨houts, ?_⟩
    rw [hbridge]
    rcases ul with _ | u
    · simp only [verifyMain, houts, List.length_nil, lt_self_iff_false,
        if_false]
      simp [hasOutlierDetail, spreadDetail_isOutliersTag]
    · simp only [verifyMain, houts, List.length_nil, lt_self_iff_false,
        if_false]
      split_ifs <;>
        simp [hasOutlierDetail, spreadDetail_isOutliersTag,
          isOutliersTag_userMismatch, isOutliersTag_userMatch]
  · intro hb
    have houts : detectOutliers G (l.filterMap validOf)
        (G.getCenter (l.filterMap validOf)) =
        (l.filterMap validOf).filter (fun c =>
          G.getDistance (G.getCenter (l.filterMap validOf)) c >
            avgDistOf G (l.filterMap validOf)
              (G.getCenter (l.filterMap validOf)) * 3) := by
      unfold detectOutliers
      exact if_neg (not_lt.mpr hb)
    refine ⟨houts, ?_⟩
    intro hn
    rw [hbridge]
    constructor
    · rcases ul with _ | u
      · simp only [verifyMain, if_pos hn]
        simp
      · simp only [verifyMain, if_pos hn]
        split_ifs <;> simp
    · intro hul
      subst hul
      simp only [verifyMain, if_pos hn]

/-- Witness for C9: a cluster whose distances to the centroid are
`5, 5, 5, 7` metres has mean `5.5 < 10`, so no outlier is flagged and no
outlier detail appears, even for the point 2 m further out. -/
theorem outlier_pass_guard_and_penalty_witness :
    (([some ⟨some 0, some 0⟩, some ⟨some 1, some 0⟩, some ⟨some 2, some 0⟩,
          some ⟨some 3, some 0⟩] : List (Option RawPoint)).filterMap validOf ≠ [] ∧
      avgDistOf
        ⟨fun _ => ⟨9, 9⟩, fun _ b => if b.lat = 0 then 5 else if b.lat = 1
          then 5 else if b.lat = 2 then 5 else 7⟩
        (([some ⟨some 0, some 0⟩, some ⟨some 1, some 0⟩, some ⟨some 2, some 0⟩,
          some ⟨some 3, some 0⟩] : List (Option RawPoint)).filterMap validOf)
        ⟨9, 9⟩ < 10) ∧
    (detectOutliers
        ⟨fun _ => ⟨9, 9⟩, fun _ b => if b.lat = 0 then 5 else if b.lat = 1
          then 5 else if b.lat = 2 then 5 else 7⟩
        (([some ⟨some 0, some 0⟩, some ⟨some 1, some 0⟩, some ⟨some 2, some 0⟩,
          some ⟨some 3, some 0⟩] : List (Option RawPoint)).filterMap validOf)
        ⟨9, 9⟩ = [] ∧
      hasOutlierDetail
        (verifyCoordinates
          ⟨fun _ => ⟨9, 9⟩, fun _ b => if b.lat = 0 then 5 else if b.lat = 1
            then 5 else if b.lat = 2 then 5 else 7⟩
          (some [some ⟨some 0, some 0⟩, some ⟨some 1, some 0⟩,
            some ⟨some 2, some 0⟩, some ⟨some 3, some 0⟩]) none) = false) :=
  ⟨⟨by decide, by with_unfolding_all decide⟩,
    (outlier_pass_guard_and_penalty
      ⟨fun _ => ⟨9, 9⟩, fun _ b => if b.lat = 0 then 5 else if b.lat = 1
        then 5 else if b.lat = 2 then 5 else 7⟩
      [some ⟨some 0, some 0⟩, some ⟨some 1, some 0⟩, some ⟨some 2, some 0⟩,
        some ⟨some 3, some 0⟩] none _ _ _ rfl (by decide) rfl rfl).1
      (by with_unfolding_all decide)⟩

/-- C10: a supplied user location whose latitude is exactly `0` (falsy in
the source guard `userLocation && userLocation.lat`) makes the
user-location cross-check be skipped entirely: the verification result is
identical to the one with no user location at all — no penalty, no status
downgrade, no match detail, no `dist_to_user_m` metric. -/
theorem zero_latitude_user_location_skipped (G : GeoFns)
    (cl : Option (List (Option RawPoint))) (u : Coord) (h : u.lat = 0) :
    verifyCoordinates G cl (some u) = verifyCoordinates G cl none := by
  rcases cl with _ | l
  · rfl
  · simp only [verifyCoordinates]
    split_ifs
    · rfl
    · rfl
    · simp only [verifyMain]
      rw [if_pos h]

/-- Witness for C10: a user location on the equator (latitude `0`,
longitude `5`) is ignored even though it lies far from the cluster. -/
theorem zero_latitude_user_location_skipped_witness :
    (Coord.lat ⟨0, 5⟩ = 0) ∧
    verifyCoordinates ⟨fun _ => ⟨1, 1⟩, fun _ _ => 1000000⟩
        (some [some ⟨some 1, some 1⟩]) (some ⟨0, 5⟩) =
      verifyCoordinates ⟨fun _ => ⟨1, 1⟩, fun _ _ => 1000000⟩
        (some [some ⟨some 1, some 1⟩]) none :=
  ⟨rfl, zero_latitude_user_location_skipped ⟨fun _ => ⟨1, 1⟩, fun _ _ => 1000000⟩
    (some [some ⟨some 1, some 1⟩]) ⟨0, 5⟩ rfl⟩

/-! ## Decision engine and cache claims -/

/-- C1: the decision engine returns `APPROVE` exactly when the confidence
score is at least `0.70`, `MANUAL_REVIEW` exactly when it lies in
`[0.30, 0.70)` and `REJECT` exactly when it is below `0.30`; in particular
both lower bounds are inclusive: confidence exactly `0.70` approves and
exactly `0.30` goes to manual review. -/
theorem confidence_banding :
    (∀ p : PythonResult,
      ((determineClaimDecision p).decision = .APPROVE ↔
        7/10 ≤ confidenceOf p) ∧
      ((determineClaimDecision p).decision = .MANUAL_REVIEW ↔
        3/10 ≤ confidenceOf p ∧ confidenceOf p < 7/10) ∧
      ((determineClaimDecision p).decision = .REJECT ↔
        confidenceOf p < 3/10)) ∧
    (determineClaimDecision ⟨some ⟨none, some (7/10), none, none⟩, none,
      none⟩).decision = .APPROVE ∧
    (determineClaimDecision ⟨some ⟨none, some (3/10), none, none⟩, none,
      none⟩).decision = .MANUAL_REVIEW := by
  refine ⟨fun p => ?_, by with_unfolding_all rfl, by with_unfolding_all rfl⟩
  simp only [determineClaimDecision]
  split_ifs with h1 h2
  · exact ⟨⟨fun _ => h1, fun _ => rfl⟩,
      ⟨fun h => (nomatch h), fun h => absurd h1 (not_le.mpr h.2)⟩,
      ⟨fun h => (nomatch h),
        fun h => absurd (lt_of_le_of_lt h1 h) (by norm_num)⟩⟩
  · exact ⟨⟨fun h => (nomatch h), fun hl => absurd hl h1⟩,
      ⟨fun _ => h2, fun _ => rfl⟩,
      ⟨fun h => (nomatch h), fun hl => absurd h2.1 (not_le.mpr hl)⟩⟩
  · have hc7 : confidenceOf p < 7/10 := not_le.mp h1
    have hlt : confidenceOf p < 3/10 := by
      by_contra hge
      exact h2 ⟨not_lt.mp hge, hc7⟩
    exact ⟨⟨fun h => (nomatch h), fun hl => absurd hl h1⟩,
      ⟨fun h => (nomatch h), fun hm => absurd hm h2⟩,
      ⟨fun _ => hlt, fun _ => rfl⟩⟩

/-- Convenience input: a Python pipeline result carrying a confidence
score and the spec-modelled payout calculation. -/
def pyInput (si dp conf : ℚ) : PythonResult :=
  ⟨some ⟨none, some conf, none, none⟩, some (pythonPayoutCalculation si dp),
    none⟩

/-- C2 (amended): through `mapPythonToFrontend`, the final payout amount
equals `sum_insured × damage_percent / 100` (as supplied by the upstream
payout calculation) when the decision is `APPROVE`, is `0` when `REJECT`,
and for `MANUAL_REVIEW` the amount is zeroed and the payout is marked
`pending_review` (pending human adjudication) rather than left unset; the
example `sum_insured = 100000`, `damage_percent = 50`, `confidence = 0.8`
yields decision `APPROVE` and payout `50000`. -/
theorem payout_gated_by_decision (si dp conf : ℚ) :
    ((mapPythonToFrontend (pyInput si dp conf)).final_decision.decision
        = .APPROVE →
      (mapPythonToFrontend
          (pyInput si dp conf)).payout_calculation.final_payout_amount =
        some (si * dp / 100)) ∧
    ((mapPythonToFrontend (pyInput si dp conf)).final_decision.decision
        = .REJECT →
      (mapPythonToFrontend
          (pyInput si dp conf)).payout_calculation.final_payout_amount =
        some 0) ∧
    ((mapPythonToFrontend (pyInput si dp conf)).final_decision.decision
        = .MANUAL_REVIEW →
      (mapPythonToFrontend
          (pyInput si dp conf)).payout_calculation.final_payout_amount =
        some 0 ∧
      (mapPythonToFrontend
          (pyInput si dp conf)).payout_calculation.payout_status =
        .pending_review ∧
      (mapPythonToFrontend
          (pyInput si dp conf)).payout_calculation.payout_approved = false) ∧
    ((mapPythonToFrontend (pyInput 100000 50 (4/5))).final_decision.decision
        = .APPROVE ∧
      (mapPythonToFrontend
          (pyInput 100000 50 (4/5))).payout_calculation.final_payout_amount =
        some 50000) := by
  have hex : (mapPythonToFrontend
        (pyInput 100000 50 (4/5))).final_decision.decision = .APPROVE ∧
      (mapPythonToFrontend
          (pyInput 100000 50 (4/5))).payout_calculation.final_payout_amount =
        some 50000 :=
    ⟨by with_unfolding_all rfl, by with_unfolding_all rfl⟩
  have hconf : confidenceOf (pyInput si dp conf) = conf := rfl
  by_cases h1 : (7:ℚ)/10 ≤ conf
  · have hmap : mapPythonToFrontend (pyInput si dp conf) =
        ⟨conf, ⟨.APPROVE, "low", false, conf, "auto_approve", true⟩,
          ⟨some si, some dp, some "INR", true, .processing,
            some (si * dp / 100)⟩⟩ := by
      simp [mapPythonToFrontend, determineClaimDecision, confidenceOf,
        Option.bind, Option.getD, h1, pyInput, pythonPayoutCalculation]
    rw [hmap]
    exact ⟨fun _ => rfl, fun h => (nomatch h), fun h => (nomatch h), hex⟩
  · have h7 : conf < 7/10 := not_le.mp h1
    by_cases h3 : (3:ℚ)/10 ≤ conf
    · have hmap : mapPythonToFrontend (pyInput si dp conf) =
          ⟨conf, ⟨.MANUAL_REVIEW, "medium", true, conf, "manual_review",
            false⟩,
            ⟨some si, some dp, some "INR", false, .pending_review,
              some 0⟩⟩ := by
        simp [mapPythonToFrontend, determineClaimDecision, confidenceOf,
          Option.bind, Option.getD, h1, h3, h7, pyInput,
          pythonPayoutCalculation]
      rw [hmap]
      exact ⟨fun h => (nomatch h), fun h => (nomatch h),
        fun _ => ⟨rfl, rfl, rfl⟩, hex⟩
    · have hmap : mapPythonToFrontend (pyInput si dp conf) =
          ⟨conf, ⟨.REJECT, "high", false, conf, "reject_retry", false⟩,
            ⟨some si, some dp, some "INR", false, .rejected, some 0⟩⟩ := by
        simp [mapPythonToFrontend, determineClaimDecision, confidenceOf,
          Option.bind, Option.getD, h1, h3, pyInput, pythonPayoutCalculation]
      rw [hmap]
      exact ⟨fun h => (nomatch h), fun _ => rfl, fun h => (nomatch h), hex⟩

/-- Witness for C2: at `sum_insured = 100000`, `damage_percent = 50`,
`confidence = 0.8`, the `APPROVE` hypothesis is realised and the payout is
`100000 × 50 / 100 = 50000`. -/
theorem payout_gated_by_decision_witness :
    (mapPythonToFrontend (pyInput 100000 50 (4/5))).final_decision.decision
        = .APPROVE ∧
    (mapPythonToFrontend
        (pyInput 100000 50 (4/5))).payout_calculation.final_payout_amount =
      some (100000 * 50 / 100) :=
  ⟨by with_unfolding_all rfl,
    (payout_gated_by_decision 100000 50 (4/5)).1 (by with_unfolding_all rfl)⟩

/-- Counterexample to C5 as stated: mock fallbacks are not stored in the
cache.  With a configured key and a failing provider, the first lookup at
`(0, 0)` returns a mock snapshot, the cache stays empty, and a second
lookup in the same 2-decimal cell one millisecond later (well within the
TTL) calls the external provider again — two external provider calls, not
at most one. -/
theorem mock_snapshot_not_cached :
    (getCurrentWeather (some "k") (fun _ _ => none) [] 0 0 0).data.isMock
      = true ∧
    (getCurrentWeather (some "k") (fun _ _ => none) [] 0 0 0).cache = [] ∧
    ¬ ((getCurrentWeather (some "k") (fun _ _ => none) [] 0 0
          0).providerCalls +
        (getCurrentWeather (some "k") (fun _ _ => none)
          (getCurrentWeather (some "k") (fun _ _ => none) [] 0 0 0).cache
          1 0 0).providerCalls ≤ 1) ∧
    cacheKey 0 0 = cacheKey 0 0 ∧ (0:ℚ) ≤ 1 - 0 ∧ (1:ℚ) - 0 < CACHE_TTL := by
  refine ⟨by with_unfolding_all rfl, by with_unfolding_all rfl, ?_, rfl,
    by norm_num, by norm_num [CACHE_TTL]⟩
  have h2 : (getCurrentWeather (some "k") (fun _ _ => none) [] 0 0
        0).providerCalls +
      (getCurrentWeather (some "k") (fun _ _ => none)
        (getCurrentWeather (some "k") (fun _ _ => none) [] 0 0 0).cache
        1 0 0).providerCalls = 2 := by
    with_unfolding_all rfl
  omega

/-- Witness for C5 (amended): a succeeding provider at `(0, 0)`, two
lookups one millisecond apart — the hypotheses hold and the two lookups
make at most one successful provider call. -/
theorem at_most_one_successful_provider_call_witness :
    (cacheKey 0 0 = cacheKey 0 0 ∧ (0:ℚ) ≤ 1 - 0 ∧ (1:ℚ) - 0 < CACHE_TTL) ∧
    (((getCurrentWeather (some "k")
          (fun _ _ => some ⟨30, 40, "Clear", "sky", 5⟩) [] 0 0
          0).providerSuccesses = 1 →
        cacheFind
            (getCurrentWeather (some "k")
              (fun _ _ => some ⟨30, 40, "Clear", "sky", 5⟩) [] 0 0 0).cache
            (cacheKey 0 0) =
          some ⟨(getCurrentWeather (some "k")
            (fun _ _ => some ⟨30, 40, "Clear", "sky", 5⟩) [] 0 0 0).data,
            0⟩) ∧
      (getCurrentWeather (some "k")
          (fun _ _ => some ⟨30, 40, "Clear", "sky", 5⟩) [] 0 0
          0).providerSuccesses +
        (getCurrentWeather (some "k")
          (fun _ _ => some ⟨30, 40, "Clear", "sky", 5⟩)
          (getCurrentWeather (some "k")
            (fun _ _ => some ⟨30, 40, "Clear", "sky", 5⟩) [] 0 0 0).cache
          1 0 0).providerSuccesses ≤ 1) :=
  ⟨⟨rfl, by norm_num, by norm_num [CACHE_TTL]⟩,
    at_most_one_successful_provider_call (some "k")
      (fun _ _ => some ⟨30, 40, "Clear", "sky", 5⟩) [] 0 1 0 0 0 0 rfl
      (by norm_num) (by norm_num [CACHE_TTL])⟩

/-- Counterexample to C2 as stated: the fallback generator emits a result
whose decision is `MANUAL_REVIEW` while its payout amount is set to the
fully computed `42500 = 100000 × 42.5 / 100` — the amount equals the
payout formula without an `APPROVE` decision and is neither unset nor
zero. -/
theorem fallback_payout_despite_manual_review :
    (generateFallbackResult "pipeline error").overall_assessment.bind
        (fun a => a.final_decision) = some "MANUAL_REVIEW" ∧
    (generateFallbackResult "pipeline error").payout_calculation.bind
        (fun c => c.final_payout_amount) = some 42500 ∧
    (42500 : ℚ) = 100000 * (85/2) / 100 ∧
    some (42500 : ℚ) ≠ some (0 : ℚ) := by
  refine ⟨rfl, rfl, by norm_num, ?_⟩
  intro h
  rw [Option.some_inj] at h
  norm_num at h

end Insurance
